import Mathlib

/-! # moviemonster: the cache-or-fetch movie lookup handler

A shallow embedding of `main.go`: the handlers `getMovie` and `getRoot`, the
metadata client `fetchMovie` and the global `cache`.

The handlers talk to the outside world (two HTTP downloads, the JSON codec of
the standard library, the file system).  Every such call is answered by an
explicit oracle (`Codec`, `Env`), and every effect of a run is recorded, in
program order, in a trace of `Event`s.  Console logging (`fmt.Println`) is not
recorded.
-/

namespace MovieMonster

/-! ## Data model -/

/-- Modelled from the spec: the declaration of the `Movie` struct is not part of
`main.go`.  The spec gives a record with a poster path attribute (a string) and
other metadata fields that are passed through unmodified; `Fields` holds those
other fields as decoded key/value pairs. -/
structure Movie where
  PosterPath : String
  Fields : List (String × String)
deriving DecidableEq, Repr

/-- The Go zero value `Movie{}`. -/
def Movie.zero : Movie := ⟨"", []⟩

/-- The constants of `config.go` used by `main.go` (their values are not part of
the source file, so they are parameters). -/
structure Config where
  apiUrlPrefix : String
  apiUrlSuffix : String
  imageUrlPrefix : String

/-- The global `cache = make(map[string]Movie)`: a lookup by key. -/
abbrev Cache := String → Option Movie

/-- The empty map the process starts with. -/
def Cache.empty : Cache := fun _ => none

/-- The assignment `cache[k] = v`. -/
def Cache.insert (c : Cache) (k : String) (v : Movie) : Cache :=
  fun j => if j = k then some v else c j

/-- The read `cache[k]` without the `ok` flag: the zero value when absent. -/
def Cache.read (c : Cache) (k : String) : Movie :=
  (c k).getD Movie.zero

/-- The bytes of a Go string (Go strings are byte sequences, UTF-8 encoded). -/
def goBytes (s : String) : List UInt8 :=
  s.data.flatMap String.utf8EncodeChar

/-- The slice expression `s[1:]` on a Go string: it drops the first byte, and
fails with a runtime error (slice bounds out of range) when `len(s) < 1`. -/
def sliceFrom1 (s : String) : Option (List UInt8) :=
  if (goBytes s).length < 1 then none else some ((goBytes s).drop 1)

/-! ## Oracles for the external calls -/

/-- The two uses of `encoding/json`: `json.Unmarshal` into a `Movie`
(`none` is a non-nil error) and `json.Marshal` of a `Movie`. -/
structure Codec where
  unmarshal : String → Option Movie
  marshal : Movie → Option String

/-- What the metadata request of `fetchMovie` can come to. -/
inductive MetaOutcome where
  | getError
  | readError
  | body (s : String)
deriving DecidableEq, Repr

/-- What the poster request `http.Get(url)` can come to. -/
inductive ImageOutcome where
  | transportError
  | response (statusCode : Nat) (body : List UInt8)
deriving DecidableEq, Repr

/-- The outside world during one run of a handler. -/
structure Env where
  metadata : String → MetaOutcome
  image : String → ImageOutcome
  createOk : List UInt8 → Bool
  copyOk : Bool

/-! ## Effects of a run -/

/-- The observable effects, in program order. -/
inductive Event where
  | metadataGet (url : String)
  | writeHeader (statusCode : Nat)
  | writeString (s : String)
  | imageGet (url : String)
  | osCreate (name : List UInt8) (ok : Bool)
  | ioCopy (name : List UInt8) (body : List UInt8) (ok : Bool)
  | fileClose (name : List UInt8)
deriving DecidableEq, Repr

/-- How a run of a handler ends: it returns, the process exits
(`os.Exit` / `log.Fatalln` in `fetchMovie`), or the handler goroutine panics. -/
inductive Ending where
  | returned
  | exited
  | panicked
deriving DecidableEq, Repr

/-- The outcome of one handler run. -/
structure Result where
  cache : Cache
  events : List Event
  ending : Ending

/-- The strings passed to `io.WriteString`, in order. -/
def writesOf (evs : List Event) : List String :=
  evs.filterMap fun e => match e with
    | .writeString s => some s
    | _ => none

/-- The response body: everything written to the `ResponseWriter`. -/
def bodyOf (evs : List Event) : String :=
  String.join (writesOf evs)

/-- The status codes set with `WriteHeader` (no handler of `main.go` calls it). -/
def headersOf (evs : List Event) : List Nat :=
  evs.filterMap fun e => match e with
    | .writeHeader c => some c
    | _ => none

/-- The status of the response: the first code set explicitly, and 200 (the
default of `net/http`) when none is set. -/
def statusOf (evs : List Event) : Nat :=
  (headersOf evs).headD 200

/-- The URLs of the outbound metadata requests. -/
def metadataFetches (evs : List Event) : List String :=
  evs.filterMap fun e => match e with
    | .metadataGet u => some u
    | _ => none

/-- The URLs of the outbound poster requests. -/
def imageFetches (evs : List Event) : List String :=
  evs.filterMap fun e => match e with
    | .imageGet u => some u
    | _ => none

/-- The names passed to `os.Create`, whether or not the call succeeded. -/
def createCalls (evs : List Event) : List (List UInt8) :=
  evs.filterMap fun e => match e with
    | .osCreate n _ => some n
    | _ => none

/-- The local files actually created. -/
def createdFiles (evs : List Event) : List (List UInt8) :=
  evs.filterMap fun e => match e with
    | .osCreate n true => some n
    | _ => none

/-! ## The program -/

/-- The function `fetchMovie` together with the receive `<-fetchMovie(movieId)`:
one `http.Get` on the API URL; a transport error or a read error ends the
process (`none`), otherwise the body is handed over as a string. -/
def fetchMovie (cfg : Config) (env : Env) (movieId : String) : Event × Option String :=
  let url := cfg.apiUrlPrefix ++ movieId ++ cfg.apiUrlSuffix
  match env.metadata url with
  | .getError => (.metadataGet url, none)
  | .readError => (.metadataGet url, none)
  | .body s => (.metadataGet url, some s)

/-- Lines 92 to 140 of `getMovie`: marshal the cached record, write it, then
download the poster and save it to disk.  `pre` is the trace so far. -/
def serveRecord (cfg : Config) (codec : Codec) (env : Env) (cache : Cache)
    (movieId : String) (pre : List Event) : Result :=
  let val := cache.read movieId
  match codec.marshal val with
  | none => ⟨cache, pre, .returned⟩
  | some results =>
    let url := cfg.imageUrlPrefix ++ val.PosterPath
    let sent := pre ++ [.writeString results, .imageGet url]
    match env.image url with
    | .transportError => ⟨cache, sent, .returned⟩
    | .response statusCode body =>
      if statusCode ≠ 200 then ⟨cache, sent, .returned⟩
      else
        let posterPath := val.PosterPath
        match sliceFrom1 posterPath with
        | none => ⟨cache, sent, .panicked⟩
        | some localFilename =>
          if env.createOk localFilename = false then
            ⟨cache, sent ++ [.osCreate localFilename false], .returned⟩
          else
            ⟨cache, sent ++ [.osCreate localFilename true,
                .ioCopy localFilename body env.copyOk, .fileClose localFilename], .returned⟩

/-- The handler of `/movie/:movieId`. -/
def getMovie (cfg : Config) (codec : Codec) (env : Env) (cache : Cache)
    (movieId : String) : Result :=
  match cache movieId with
  | some _ => serveRecord cfg codec env cache movieId []
  | none =>
    match fetchMovie cfg env movieId with
    | (ev, none) => ⟨cache, [ev], .exited⟩
    | (ev, some movieJson) =>
      match codec.unmarshal movieJson with
      | none => ⟨cache, [ev], .returned⟩
      | some targetMovie =>
        serveRecord cfg codec env (cache.insert movieId targetMovie) movieId [ev]

/-- The handler of `/`. -/
def getRoot (cache : Cache) : Result :=
  ⟨cache, [.writeString "Movie monster, at your service"], .returned⟩

/-- The two routes registered in `main`. -/
inductive Request where
  | root
  | movie (movieId : String)
deriving DecidableEq, Repr

/-- The dispatch of the router set up in `main`. -/
def route (cfg : Config) (codec : Codec) (env : Env) (cache : Cache) : Request → Result
  | .root => getRoot cache
  | .movie movieId => getMovie cfg codec env cache movieId

/-- A sequence of requests served one after the other by the same process, each
in its own outside world.  The cache is carried from one run to the next; when a
run ends the process there is no state left (`none`).  A panicking handler is
recovered by the HTTP server and the process goes on. -/
def serveAll (cfg : Config) (codec : Codec) : List (Request × Env) → Cache → Option Cache
  | [], cache => some cache
  | (rq, env) :: rest, cache =>
    match (route cfg codec env cache rq).ending with
    | .exited => none
    | _ => serveAll cfg codec rest (route cfg codec env cache rq).cache

/-! ## Sample data -/

/-- A configuration in the shape of the TMDB endpoints. -/
def sampleConfig : Config :=
  ⟨"https://api.themoviedb.org/3/movie/", "?api_key=KEY", "https://image.tmdb.org/t/p/w500"⟩

/-- The metadata body of the spec's example. -/
def sampleBody : String := "\x7b\"id\":\"500\",\"poster_path\":\"/abc.jpg\"\x7d"

/-- The record the example body decodes to. -/
def sampleMovie : Movie := ⟨"/abc.jpg", [("id", "500")]⟩

/-- A metadata body whose poster path has no leading separator. -/
def bareBody : String := "\x7b\"id\":\"501\",\"poster_path\":\"abc.jpg\"\x7d"

/-- The record `bareBody` decodes to. -/
def bareMovie : Movie := ⟨"abc.jpg", [("id", "501")]⟩

/-- A metadata body without any field: it decodes to the zero record. -/
def emptyBody : String := "\x7b\x7d"

/-- The serialization of the zero record. -/
def zeroBody : String := "\x7b\"id\":\"\",\"poster_path\":\"\"\x7d"

/-- The JSON codec restricted to the sample bodies and records; every other
body is rejected as malformed. -/
def sampleCodec : Codec where
  unmarshal s :=
    if s = sampleBody then some sampleMovie
    else if s = bareBody then some bareMovie
    else if s = emptyBody ∨ s = zeroBody then some Movie.zero
    else none
  marshal m :=
    if m = sampleMovie then some sampleBody
    else if m = bareMovie then some bareBody
    else if m = Movie.zero then some zeroBody
    else none

/-- An outside world that answers every metadata request with `body` and every
poster request with `img`; file creation and copying succeed. -/
def envWith (body : String) (img : ImageOutcome) : Env :=
  ⟨fun _ => .body body, fun _ => img, fun _ => true, true⟩

/-- A cache holding the sample record under the identifier 500. -/
def sampleCache : Cache := Cache.empty.insert "500" sampleMovie

/-! ## Basic facts about the embedding -/

theorem Cache.insert_same (c : Cache) (k : String) (v : Movie) :
    (c.insert k v) k = some v := by
  simp [Cache.insert]

theorem Cache.insert_other (c : Cache) (k j : String) (v : Movie) (h : j ≠ k) :
    (c.insert k v) j = c j := by
  simp [Cache.insert, h]

theorem Cache.read_insert (c : Cache) (k : String) (v : Movie) :
    (c.insert k v).read k = v := by
  simp [Cache.read, Cache.insert]

theorem Cache.read_of_some (c : Cache) (k : String) (v : Movie) (h : c k = some v) :
    c.read k = v := by
  simp [Cache.read, h]

theorem serveRecord_cache (cfg : Config) (codec : Codec) (env : Env) (cache : Cache)
    (movieId : String) (pre : List Event) :
    (serveRecord cfg codec env cache movieId pre).cache = cache := by
  unfold serveRecord
  dsimp only
  repeat' (first | rfl | split)

theorem serveRecord_metadataFetches (cfg : Config) (codec : Codec) (env : Env)
    (cache : Cache) (movieId : String) (pre : List Event) :
    metadataFetches (serveRecord cfg codec env cache movieId pre).events
      = metadataFetches pre := by
  unfold serveRecord
  dsimp only
  repeat' (first | (simp [metadataFetches, List.filterMap_append]; done) | split)

theorem serveRecord_writes (cfg : Config) (codec : Codec) (env : Env)
    (cache : Cache) (movieId : String) (pre : List Event) :
    writesOf (serveRecord cfg codec env cache movieId pre).events
      = writesOf pre ++ (codec.marshal (cache.read movieId)).toList := by
  unfold serveRecord
  dsimp only
  repeat' (first | (simp [writesOf, List.filterMap_append, *]; done) | split)

theorem serveRecord_imageFetches (cfg : Config) (codec : Codec) (env : Env)
    (cache : Cache) (movieId : String) (pre : List Event) :
    imageFetches (serveRecord cfg codec env cache movieId pre).events
      = imageFetches pre ++ ((codec.marshal (cache.read movieId)).toList.map
          fun _ => cfg.imageUrlPrefix ++ (cache.read movieId).PosterPath) := by
  unfold serveRecord
  dsimp only
  repeat' (first | (simp [imageFetches, List.filterMap_append, *]; done) | split)

theorem getMovie_hit (cfg : Config) (codec : Codec) (env : Env) (cache : Cache)
    (movieId : String) (m : Movie) (h : cache movieId = some m) :
    getMovie cfg codec env cache movieId = serveRecord cfg codec env cache movieId [] := by
  simp [getMovie, h]

theorem getMovie_miss_decoded (cfg : Config) (codec : Codec) (env : Env) (cache : Cache)
    (movieId body : String) (r : Movie) (h : cache movieId = none)
    (hb : env.metadata (cfg.apiUrlPrefix ++ movieId ++ cfg.apiUrlSuffix) = .body body)
    (hr : codec.unmarshal body = some r) :
    getMovie cfg codec env cache movieId
      = serveRecord cfg codec env (cache.insert movieId r) movieId
          [.metadataGet (cfg.apiUrlPrefix ++ movieId ++ cfg.apiUrlSuffix)] := by
  simp [getMovie, fetchMovie, h, hb, hr]

theorem getMovie_miss_undecoded (cfg : Config) (codec : Codec) (env : Env) (cache : Cache)
    (movieId body : String) (h : cache movieId = none)
    (hb : env.metadata (cfg.apiUrlPrefix ++ movieId ++ cfg.apiUrlSuffix) = .body body)
    (hr : codec.unmarshal body = none) :
    getMovie cfg codec env cache movieId
      = ⟨cache, [.metadataGet (cfg.apiUrlPrefix ++ movieId ++ cfg.apiUrlSuffix)],
          .returned⟩ := by
  simp [getMovie, fetchMovie, h, hb, hr]

theorem getMovie_miss_getError (cfg : Config) (codec : Codec) (env : Env) (cache : Cache)
    (movieId : String) (h : cache movieId = none)
    (hb : env.metadata (cfg.apiUrlPrefix ++ movieId ++ cfg.apiUrlSuffix) = .getError) :
    getMovie cfg codec env cache movieId
      = ⟨cache, [.metadataGet (cfg.apiUrlPrefix ++ movieId ++ cfg.apiUrlSuffix)],
          .exited⟩ := by
  simp [getMovie, fetchMovie, h, hb]

theorem getMovie_miss_readError (cfg : Config) (codec : Codec) (env : Env) (cache : Cache)
    (movieId : String) (h : cache movieId = none)
    (hb : env.metadata (cfg.apiUrlPrefix ++ movieId ++ cfg.apiUrlSuffix) = .readError) :
    getMovie cfg codec env cache movieId
      = ⟨cache, [.metadataGet (cfg.apiUrlPrefix ++ movieId ++ cfg.apiUrlSuffix)],
          .exited⟩ := by
  simp [getMovie, fetchMovie, h, hb]

theorem getMovie_metadataFetches (cfg : Config) (codec : Codec) (env : Env)
    (cache : Cache) (movieId : String) :
    metadataFetches (getMovie cfg codec env cache movieId).events
      = if (cache movieId).isSome then []
        else [cfg.apiUrlPrefix ++ movieId ++ cfg.apiUrlSuffix] := by
  cases h : cache movieId with
  | some m =>
    rw [getMovie_hit cfg codec env cache movieId m h, serveRecord_metadataFetches]
    simp [metadataFetches]
  | none =>
    cases hb : env.metadata (cfg.apiUrlPrefix ++ movieId ++ cfg.apiUrlSuffix) with
    | getError =>
      rw [getMovie_miss_getError cfg codec env cache movieId h hb]
      simp [metadataFetches]
    | readError =>
      rw [getMovie_miss_readError cfg codec env cache movieId h hb]
      simp [metadataFetches]
    | body s =>
      cases hu : codec.unmarshal s with
      | none =>
        rw [getMovie_miss_undecoded cfg codec env cache movieId s h hb hu]
        simp [metadataFetches]
      | some t =>
        rw [getMovie_miss_decoded cfg codec env cache movieId s t h hb hu,
          serveRecord_metadataFetches]
        simp [metadataFetches]

/-- The cache a run of `getMovie` leaves behind, as a function of the metadata
answer alone. -/
theorem getMovie_cache (cfg : Config) (codec : Codec) (env : Env)
    (cache : Cache) (movieId : String) :
    (getMovie cfg codec env cache movieId).cache
      = match cache movieId with
        | some _ => cache
        | none =>
          match env.metadata (cfg.apiUrlPrefix ++ movieId ++ cfg.apiUrlSuffix) with
          | .body s =>
            match codec.unmarshal s with
            | some t => cache.insert movieId t
            | none => cache
          | _ => cache := by
  cases h : cache movieId with
  | some m =>
    rw [getMovie_hit cfg codec env cache movieId m h, serveRecord_cache]
  | none =>
    cases hb : env.metadata (cfg.apiUrlPrefix ++ movieId ++ cfg.apiUrlSuffix) with
    | getError => rw [getMovie_miss_getError cfg codec env cache movieId h hb]
    | readError => rw [getMovie_miss_readError cfg codec env cache movieId h hb]
    | body s =>
      cases hu : codec.unmarshal s with
      | none =>
        rw [getMovie_miss_undecoded cfg codec env cache movieId s h hb hu]
        simp [hu]
      | some t =>
        rw [getMovie_miss_decoded cfg codec env cache movieId s t h hb hu, serveRecord_cache]
        simp [hu]

/-- The strings a run of `getMovie` writes, as a function of the metadata answer
alone. -/
theorem getMovie_writes (cfg : Config) (codec : Codec) (env : Env)
    (cache : Cache) (movieId : String) :
    writesOf (getMovie cfg codec env cache movieId).events
      = match cache movieId with
        | some m => (codec.marshal m).toList
        | none =>
          match env.metadata (cfg.apiUrlPrefix ++ movieId ++ cfg.apiUrlSuffix) with
          | .body s =>
            match codec.unmarshal s with
            | some t => (codec.marshal t).toList
            | none => []
          | _ => [] := by
  cases h : cache movieId with
  | some m =>
    rw [getMovie_hit cfg codec env cache movieId m h, serveRecord_writes,
      Cache.read_of_some cache movieId m h]
    simp [writesOf]
  | none =>
    cases hb : env.metadata (cfg.apiUrlPrefix ++ movieId ++ cfg.apiUrlSuffix) with
    | getError =>
      rw [getMovie_miss_getError cfg codec env cache movieId h hb]
      simp [writesOf]
    | readError =>
      rw [getMovie_miss_readError cfg codec env cache movieId h hb]
      simp [writesOf]
    | body s =>
      cases hu : codec.unmarshal s with
      | none =>
        rw [getMovie_miss_undecoded cfg codec env cache movieId s h hb hu]
        simp [writesOf, hu]
      | some t =>
        rw [getMovie_miss_decoded cfg codec env cache movieId s t h hb hu,
          serveRecord_writes, Cache.read_insert]
        simp [writesOf, hu]

theorem goBytes_slash_append (rest : String) :
    goBytes ("/" ++ rest) = goBytes "/" ++ goBytes rest := by
  simp [goBytes, String.data_append]

theorem goBytes_slash : goBytes "/" = [47] := by decide

theorem sliceFrom1_slash (rest : String) :
    sliceFrom1 ("/" ++ rest) = some (goBytes rest) := by
  simp [sliceFrom1, goBytes_slash_append, goBytes_slash]

theorem serveRecord_non200 (cfg : Config) (codec : Codec) (env : Env)
    (cache : Cache) (movieId : String) (pre : List Event) (s : String)
    (statusCode : Nat) (img : List UInt8)
    (hs : codec.marshal (cache.read movieId) = some s)
    (himg : env.image (cfg.imageUrlPrefix ++ (cache.read movieId).PosterPath)
      = .response statusCode img)
    (hst : statusCode ≠ 200) :
    serveRecord cfg codec env cache movieId pre
      = ⟨cache, pre ++ [.writeString s,
          .imageGet (cfg.imageUrlPrefix ++ (cache.read movieId).PosterPath)], .returned⟩ := by
  simp [serveRecord, hs, himg, hst]

theorem serveRecord_200_createCalls (cfg : Config) (codec : Codec) (env : Env)
    (cache : Cache) (movieId : String) (pre : List Event) (s : String)
    (img : List UInt8) (f : List UInt8)
    (hs : codec.marshal (cache.read movieId) = some s)
    (himg : env.image (cfg.imageUrlPrefix ++ (cache.read movieId).PosterPath)
      = .response 200 img)
    (hf : sliceFrom1 (cache.read movieId).PosterPath = some f) :
    createCalls (serveRecord cfg codec env cache movieId pre).events
      = createCalls pre ++ [f] := by
  unfold serveRecord
  dsimp only
  rw [hs]
  dsimp only
  rw [himg]
  dsimp only
  rw [hf]
  cases hc : env.createOk f <;> simp [createCalls, List.filterMap_append, hc]

theorem route_preserves (cfg : Config) (codec : Codec) (env : Env) (cache : Cache)
    (rq : Request) (k : String) (m : Movie) (h : cache k = some m) :
    (route cfg codec env cache rq).cache k = some m := by
  cases rq with
  | root => exact h
  | movie movieId =>
    show (getMovie cfg codec env cache movieId).cache k = some m
    rw [getMovie_cache]
    cases hc : cache movieId with
    | some v => exact h
    | none =>
      have hk : k ≠ movieId := by
        intro e
        rw [e, hc] at h
        cases h
      cases env.metadata (cfg.apiUrlPrefix ++ movieId ++ cfg.apiUrlSuffix) with
      | getError => exact h
      | readError => exact h
      | body b =>
        cases hu : codec.unmarshal b with
        | none => simpa [hu] using h
        | some t =>
          simp only [hu]
          rw [Cache.insert_other cache movieId k t hk]
          exact h

theorem serveAll_preserves (cfg : Config) (codec : Codec) (k : String) (m : Movie) :
    ∀ (rqs : List (Request × Env)) (cache cache₂ : Cache),
      cache k = some m → serveAll cfg codec rqs cache = some cache₂ → cache₂ k = some m := by
  intro rqs
  induction rqs with
  | nil =>
    intro cache cache₂ h hs
    simp only [serveAll, Option.some.injEq] at hs
    rw [← hs]
    exact h
  | cons p rest ih =>
    intro cache cache₂ h hs
    obtain ⟨rq, env⟩ := p
    have hnext := route_preserves cfg codec env cache rq k m h
    unfold serveAll at hs
    split at hs
    · cases hs
    · exact ih _ _ hnext hs

theorem bodyOf_single (evs : List Event) (s : String) (h : writesOf evs = [s]) :
    bodyOf evs = s := by
  simp [bodyOf, h, String.join]

/-- The record is available to a lookup: it is cached, or the identifier is
absent and the fetched body decodes to it.  In both cases the run is the
serving part on a cache that holds the record, after a trace without any write,
poster request or file creation. -/
theorem getMovie_available (cfg : Config) (codec : Codec) (env : Env) (cache : Cache)
    (movieId : String) (r : Movie)
    (hrec : cache movieId = some r ∨ (cache movieId = none ∧ ∃ body,
      env.metadata (cfg.apiUrlPrefix ++ movieId ++ cfg.apiUrlSuffix) = .body body ∧
      codec.unmarshal body = some r)) :
    ∃ cache₁ pre, getMovie cfg codec env cache movieId
        = serveRecord cfg codec env cache₁ movieId pre ∧ cache₁.read movieId = r ∧
      writesOf pre = [] ∧ imageFetches pre = [] ∧ createCalls pre = [] := by
  rcases hrec with h | ⟨h, body, hb, hr⟩
  · exact ⟨cache, [], getMovie_hit cfg codec env cache movieId r h,
      Cache.read_of_some cache movieId r h, rfl, rfl, rfl⟩
  · exact ⟨cache.insert movieId r, _,
      getMovie_miss_decoded cfg codec env cache movieId body r h hb hr,
      Cache.read_insert cache movieId r, rfl, rfl, rfl⟩

/-- Where the slice of line 122 does what the comment of line 121 says: for a
record available to the lookup that serializes and whose poster path begins
with the separator `/`, when the poster download answers 200 the one local file
that `getMovie` asks to create is named by the poster path with that leading
separator stripped, and the one image URL requested is the image prefix
followed by the unmodified poster path. -/
theorem getMovie_filename_of_separator_path (cfg : Config) (codec : Codec) (env : Env)
    (cache : Cache) (movieId s rest : String) (r : Movie) (img : List UInt8)
    (hrec : cache movieId = some r ∨ (cache movieId = none ∧ ∃ body,
      env.metadata (cfg.apiUrlPrefix ++ movieId ++ cfg.apiUrlSuffix) = .body body ∧
      codec.unmarshal body = some r))
    (hs : codec.marshal r = some s)
    (hpath : r.PosterPath = "/" ++ rest)
    (himg : env.image (cfg.imageUrlPrefix ++ r.PosterPath) = .response 200 img) :
    createCalls (getMovie cfg codec env cache movieId).events = [goBytes rest] ∧
    goBytes r.PosterPath = goBytes "/" ++ goBytes rest ∧
    imageFetches (getMovie cfg codec env cache movieId).events
      = [cfg.imageUrlPrefix ++ r.PosterPath] := by
  obtain ⟨cache₁, pre, hrun, hread, _, himgs, hcr⟩ :=
    getMovie_available cfg codec env cache movieId r hrec
  rw [← hread] at hs himg hpath
  have hf : sliceFrom1 (cache₁.read movieId).PosterPath = some (goBytes rest) := by
    rw [hpath]
    exact sliceFrom1_slash rest
  refine ⟨?_, ?_, ?_⟩
  · rw [hrun, serveRecord_200_createCalls cfg codec env cache₁ movieId pre s img
      (goBytes rest) hs himg hf, hcr]
    rfl
  · rw [← hread, hpath]
    exact goBytes_slash_append rest
  · rw [hrun, serveRecord_imageFetches, himgs, hs, hread]
    rfl

/-- The spec's example record, poster path `/abc.jpg`, served from the cache with
a poster download answering 200: the file asked for is `abc.jpg`. -/
theorem getMovie_filename_of_separator_path_sample :
    createCalls (getMovie sampleConfig sampleCodec (envWith "" (.response 200 [1]))
      sampleCache "500").events = [goBytes "abc.jpg"] ∧
    goBytes sampleMovie.PosterPath = goBytes "/" ++ goBytes "abc.jpg" ∧
    imageFetches (getMovie sampleConfig sampleCodec (envWith "" (.response 200 [1]))
      sampleCache "500").events = [sampleConfig.imageUrlPrefix ++ sampleMovie.PosterPath] :=
  getMovie_filename_of_separator_path sampleConfig sampleCodec
    (envWith "" (.response 200 [1])) sampleCache "500" sampleBody "abc.jpg" sampleMovie [1]
    (Or.inl rfl) (by decide) (by decide) rfl

/-- The sample codec reads back what it serializes. -/
theorem sampleCodec_reads_back (m : Movie) (s : String)
    (h : sampleCodec.marshal m = some s) : sampleCodec.unmarshal s = some m := by
  unfold sampleCodec at h ⊢
  simp only at h ⊢
  split at h
  · next hm =>
    cases h
    rw [hm]
    decide
  · split at h
    · next hm =>
      cases h
      rw [hm]
      decide
    · split at h
      · next hm =>
        cases h
        rw [hm]
        decide
      · cases h

/-- The example of the spec, end to end: the response to a first lookup of 500
parses back to the poster path of the fetched metadata. -/
theorem sample_response_poster_path :
    (sampleCodec.unmarshal (bodyOf (getMovie sampleConfig sampleCodec
      (envWith sampleBody (.response 404 [])) Cache.empty "500").events)).map
        Movie.PosterPath = some "/abc.jpg" := by
  decide

/-! ## The claims -/

/-- C1: one run of `getMovie` issues exactly one outbound metadata fetch when the
identifier is absent from the cache, and no outbound metadata fetch when the
identifier is present in the cache. -/
theorem getMovie_fetch_count (cfg : Config) (codec : Codec) (env : Env) (cache : Cache)
    (movieId : String) :
    (metadataFetches (getMovie cfg codec env cache movieId).events).length
      = if (cache movieId).isSome then 0 else 1 := by
  rw [getMovie_metadataFetches]
  split <;> rfl

/-- C2: when the identifier is absent from the cache and the fetched metadata
body fails to decode, `getMovie` writes nothing to the response body and leaves
the cache exactly as it was; the identifier is still absent afterwards, so the
next identical request performs the fetch again. -/
theorem getMovie_decode_failure (cfg : Config) (codec : Codec) (env next : Env)
    (cache : Cache) (movieId body : String)
    (h : cache movieId = none)
    (hb : env.metadata (cfg.apiUrlPrefix ++ movieId ++ cfg.apiUrlSuffix) = .body body)
    (hr : codec.unmarshal body = none) :
    writesOf (getMovie cfg codec env cache movieId).events = [] ∧
    bodyOf (getMovie cfg codec env cache movieId).events = "" ∧
    (getMovie cfg codec env cache movieId).cache = cache ∧
    (getMovie cfg codec env cache movieId).cache movieId = none ∧
    (getMovie cfg codec env cache movieId).ending = .returned ∧
    (metadataFetches (getMovie cfg codec next
      (getMovie cfg codec env cache movieId).cache movieId).events).length = 1 := by
  rw [getMovie_miss_undecoded cfg codec env cache movieId body h hb hr]
  refine ⟨rfl, rfl, rfl, h, rfl, ?_⟩
  rw [getMovie_metadataFetches]
  simp [h]

/-- Witness of C2 on the empty cache with the body `oops`. -/
theorem getMovie_decode_failure_witness :
    writesOf (getMovie sampleConfig sampleCodec (envWith "oops" (.response 200 []))
      Cache.empty "500").events = [] ∧
    bodyOf (getMovie sampleConfig sampleCodec (envWith "oops" (.response 200 []))
      Cache.empty "500").events = "" ∧
    (getMovie sampleConfig sampleCodec (envWith "oops" (.response 200 []))
      Cache.empty "500").cache = Cache.empty ∧
    (getMovie sampleConfig sampleCodec (envWith "oops" (.response 200 []))
      Cache.empty "500").cache "500" = none ∧
    (getMovie sampleConfig sampleCodec (envWith "oops" (.response 200 []))
      Cache.empty "500").ending = .returned ∧
    (metadataFetches (getMovie sampleConfig sampleCodec (envWith sampleBody .transportError)
      (getMovie sampleConfig sampleCodec (envWith "oops" (.response 200 []))
        Cache.empty "500").cache "500").events).length = 1 :=
  getMovie_decode_failure sampleConfig sampleCodec (envWith "oops" (.response 200 []))
    (envWith sampleBody .transportError) Cache.empty "500" "oops" rfl rfl (by decide)

/-- C3: for an identifier present in the cache, two successive runs of `getMovie`
for it, with any other requests served in between and whatever the outside world
answers in each run, write the same response body. -/
theorem cached_lookup_idempotent (cfg : Config) (codec : Codec) (env₁ env₂ : Env)
    (cache cache₂ : Cache) (movieId : String) (m : Movie)
    (between : List (Request × Env))
    (h : cache movieId = some m)
    (hs : serveAll cfg codec between (getMovie cfg codec env₁ cache movieId).cache
      = some cache₂) :
    writesOf (getMovie cfg codec env₂ cache₂ movieId).events
      = writesOf (getMovie cfg codec env₁ cache movieId).events ∧
    bodyOf (getMovie cfg codec env₂ cache₂ movieId).events
      = bodyOf (getMovie cfg codec env₁ cache movieId).events := by
  have h₁ : (getMovie cfg codec env₁ cache movieId).cache movieId = some m :=
    route_preserves cfg codec env₁ cache (.movie movieId) movieId m h
  have h₂ : cache₂ movieId = some m :=
    serveAll_preserves cfg codec movieId m between _ cache₂ h₁ hs
  have hw : writesOf (getMovie cfg codec env₂ cache₂ movieId).events
      = writesOf (getMovie cfg codec env₁ cache movieId).events := by
    rw [getMovie_writes, getMovie_writes, h, h₂]
  exact ⟨hw, by simp only [bodyOf, hw]⟩

/-- Witness of C3: the cached record 500 is looked up, then the root route and a
first lookup of 501 are served, then 500 is looked up again. -/
theorem cached_lookup_idempotent_witness :
    writesOf (getMovie sampleConfig sampleCodec (envWith "oops" .transportError)
      ((sampleCache).insert "501" bareMovie) "500").events
      = writesOf (getMovie sampleConfig sampleCodec (envWith sampleBody (.response 200 [1]))
          sampleCache "500").events ∧
    bodyOf (getMovie sampleConfig sampleCodec (envWith "oops" .transportError)
      ((sampleCache).insert "501" bareMovie) "500").events
      = bodyOf (getMovie sampleConfig sampleCodec (envWith sampleBody (.response 200 [1]))
          sampleCache "500").events :=
  cached_lookup_idempotent sampleConfig sampleCodec (envWith sampleBody (.response 200 [1]))
    (envWith "oops" .transportError) sampleCache ((sampleCache).insert "501" bareMovie)
    "500" sampleMovie
    [(.root, envWith "" .transportError), (.movie "501", envWith bareBody (.response 404 []))]
    rfl rfl

/-- C4: when the identifier is absent from the cache and the fetched metadata
body decodes to a record `r`, `getMovie` stores `r` in the cache under that
identifier and what it writes to the response is exactly the JSON serialization
of `r`; with a codec that reads back what it serializes, parsing the response
body yields the same record as parsing the fetched metadata. -/
theorem getMovie_miss_stores_and_serves (cfg : Config) (codec : Codec) (env : Env)
    (cache : Cache) (movieId body : String) (r : Movie)
    (h : cache movieId = none)
    (hb : env.metadata (cfg.apiUrlPrefix ++ movieId ++ cfg.apiUrlSuffix) = .body body)
    (hr : codec.unmarshal body = some r) :
    (getMovie cfg codec env cache movieId).cache movieId = some r ∧
    (getMovie cfg codec env cache movieId).cache = cache.insert movieId r ∧
    writesOf (getMovie cfg codec env cache movieId).events = (codec.marshal r).toList ∧
    (∀ s, codec.marshal r = some s →
      bodyOf (getMovie cfg codec env cache movieId).events = s) ∧
    ((∀ m s, codec.marshal m = some s → codec.unmarshal s = some m) →
      ∀ s ∈ writesOf (getMovie cfg codec env cache movieId).events,
        codec.unmarshal s = codec.unmarshal body) := by
  have hc : (getMovie cfg codec env cache movieId).cache = cache.insert movieId r := by
    rw [getMovie_cache]
    simp [h, hb, hr]
  have hw : writesOf (getMovie cfg codec env cache movieId).events
      = (codec.marshal r).toList := by
    rw [getMovie_writes]
    simp [h, hb, hr]
  refine ⟨?_, hc, hw, ?_, ?_⟩
  · rw [hc]
    exact Cache.insert_same cache movieId r
  · intro s hs
    apply bodyOf_single
    rw [hw, hs]
    rfl
  · intro hlaw s hmem
    rw [hw] at hmem
    have hs : codec.marshal r = some s := by
      cases hm : codec.marshal r with
      | none => simp [hm] at hmem
      | some t =>
        simp [hm] at hmem
        rw [hmem]
    rw [hlaw r s hs, hr]

/-- Witness of C4: the example body of the spec on the empty cache. -/
theorem getMovie_miss_stores_and_serves_witness :
    (getMovie sampleConfig sampleCodec (envWith sampleBody (.response 404 []))
      Cache.empty "500").cache "500" = some sampleMovie ∧
    (getMovie sampleConfig sampleCodec (envWith sampleBody (.response 404 []))
      Cache.empty "500").cache = Cache.empty.insert "500" sampleMovie ∧
    writesOf (getMovie sampleConfig sampleCodec (envWith sampleBody (.response 404 []))
      Cache.empty "500").events = (sampleCodec.marshal sampleMovie).toList ∧
    (∀ s, sampleCodec.marshal sampleMovie = some s →
      bodyOf (getMovie sampleConfig sampleCodec (envWith sampleBody (.response 404 []))
        Cache.empty "500").events = s) ∧
    ((∀ m s, sampleCodec.marshal m = some s → sampleCodec.unmarshal s = some m) →
      ∀ s ∈ writesOf (getMovie sampleConfig sampleCodec
          (envWith sampleBody (.response 404 [])) Cache.empty "500").events,
        sampleCodec.unmarshal s = sampleCodec.unmarshal sampleBody) :=
  getMovie_miss_stores_and_serves sampleConfig sampleCodec
    (envWith sampleBody (.response 404 [])) Cache.empty "500" sampleBody sampleMovie
    rfl rfl (by decide)

/-- C5: every request, whatever the external calls answer, keeps each identifier
that was in the cache, with the same record; the only change a request can make
to the cache is adding one entry for a previously absent identifier. -/
theorem route_cache_invariant (cfg : Config) (codec : Codec) (env : Env) (cache : Cache)
    (rq : Request) :
    (∀ k m, cache k = some m → (route cfg codec env cache rq).cache k = some m) ∧
    ((route cfg codec env cache rq).cache = cache ∨
      ∃ movieId r, cache movieId = none ∧
        (route cfg codec env cache rq).cache = cache.insert movieId r) := by
  refine ⟨fun k m h => route_preserves cfg codec env cache rq k m h, ?_⟩
  cases rq with
  | root => exact Or.inl rfl
  | movie movieId =>
    have hcache : (route cfg codec env cache (.movie movieId)).cache
        = (getMovie cfg codec env cache movieId).cache := rfl
    rw [hcache, getMovie_cache]
    cases hc : cache movieId with
    | some v => exact Or.inl rfl
    | none =>
      cases hb : env.metadata (cfg.apiUrlPrefix ++ movieId ++ cfg.apiUrlSuffix) with
      | getError => exact Or.inl rfl
      | readError => exact Or.inl rfl
      | body b =>
        cases hu : codec.unmarshal b with
        | none =>
          left
          simp [hu]
        | some t =>
          right
          refine ⟨movieId, t, hc, ?_⟩
          simp [hu]

/-- C6: when the record is available (cached, or decoded from the fetched body)
and serializes, and the poster download answers with a status other than 200,
`getMovie` makes no call to create a local file, and the response body written
is the whole JSON serialization of the record. -/
theorem getMovie_non200_no_file (cfg : Config) (codec : Codec) (env : Env)
    (cache : Cache) (movieId s : String) (r : Movie) (statusCode : Nat)
    (img : List UInt8)
    (hrec : cache movieId = some r ∨ (cache movieId = none ∧ ∃ body,
      env.metadata (cfg.apiUrlPrefix ++ movieId ++ cfg.apiUrlSuffix) = .body body ∧
      codec.unmarshal body = some r))
    (hs : codec.marshal r = some s)
    (himg : env.image (cfg.imageUrlPrefix ++ r.PosterPath) = .response statusCode img)
    (hst : statusCode ≠ 200) :
    createCalls (getMovie cfg codec env cache movieId).events = [] ∧
    createdFiles (getMovie cfg codec env cache movieId).events = [] ∧
    writesOf (getMovie cfg codec env cache movieId).events = [s] ∧
    bodyOf (getMovie cfg codec env cache movieId).events = s ∧
    (getMovie cfg codec env cache movieId).ending = .returned := by
  obtain ⟨cache₁, pre, hrun, hread, hw, _, hcr⟩ :=
    getMovie_available cfg codec env cache movieId r hrec
  rw [← hread] at hs himg
  have hev := serveRecord_non200 cfg codec env cache₁ movieId pre s statusCode img hs himg hst
  have hcalls : createCalls (getMovie cfg codec env cache movieId).events = [] := by
    rw [hrun, hev]
    simp only [createCalls] at hcr
    simp [createCalls, List.filterMap_append, hcr]
  have hwr : writesOf (getMovie cfg codec env cache movieId).events = [s] := by
    rw [hrun, hev]
    simp only [writesOf] at hw
    simp [writesOf, List.filterMap_append, hw]
  refine ⟨hcalls, ?_, hwr, bodyOf_single _ s hwr, ?_⟩
  · have hsub : ∀ evs : List Event, createCalls evs = [] → createdFiles evs = [] := by
      intro evs
      induction evs with
      | nil => intro _; rfl
      | cons e rest ih =>
        cases e <;> simp_all [createCalls, createdFiles, List.filterMap_cons]
    exact hsub _ hcalls
  · rw [hrun, hev]

/-- Witness of C6: a first lookup of 500 whose poster download answers 404. -/
theorem getMovie_non200_no_file_witness :
    createCalls (getMovie sampleConfig sampleCodec (envWith sampleBody (.response 404 [1]))
      Cache.empty "500").events = [] ∧
    createdFiles (getMovie sampleConfig sampleCodec (envWith sampleBody (.response 404 [1]))
      Cache.empty "500").events = [] ∧
    writesOf (getMovie sampleConfig sampleCodec (envWith sampleBody (.response 404 [1]))
      Cache.empty "500").events = [sampleBody] ∧
    bodyOf (getMovie sampleConfig sampleCodec (envWith sampleBody (.response 404 [1]))
      Cache.empty "500").events = sampleBody ∧
    (getMovie sampleConfig sampleCodec (envWith sampleBody (.response 404 [1]))
      Cache.empty "500").ending = .returned :=
  getMovie_non200_no_file sampleConfig sampleCodec (envWith sampleBody (.response 404 [1]))
    Cache.empty "500" sampleBody sampleMovie 404 [1]
    (Or.inr ⟨rfl, sampleBody, rfl, by decide⟩) (by decide) rfl (by decide)

/-- C7: the response body written by `getMovie` and the cache it leaves behind do
not depend on the poster download: two runs from the same cache for the same
identifier, with the same metadata answers, that differ in what the image
download returns and in whether file creation or copying succeeds, write the
same response body and leave the same cache. -/
theorem getMovie_independent_of_poster (cfg : Config) (codec : Codec) (env₁ env₂ : Env)
    (cache : Cache) (movieId : String)
    (hmeta : env₁.metadata = env₂.metadata) :
    writesOf (getMovie cfg codec env₁ cache movieId).events
      = writesOf (getMovie cfg codec env₂ cache movieId).events ∧
    bodyOf (getMovie cfg codec env₁ cache movieId).events
      = bodyOf (getMovie cfg codec env₂ cache movieId).events ∧
    (getMovie cfg codec env₁ cache movieId).cache
      = (getMovie cfg codec env₂ cache movieId).cache := by
  have hw : writesOf (getMovie cfg codec env₁ cache movieId).events
      = writesOf (getMovie cfg codec env₂ cache movieId).events := by
    rw [getMovie_writes, getMovie_writes, hmeta]
  refine ⟨hw, by simp only [bodyOf, hw], ?_⟩
  rw [getMovie_cache, getMovie_cache, hmeta]

/-- Witness of C7: a poster download that succeeds with all file operations
succeeding, against a transport error with file creation and copying failing. -/
theorem getMovie_independent_of_poster_witness :
    writesOf (getMovie sampleConfig sampleCodec (envWith sampleBody (.response 200 [1, 2]))
        Cache.empty "500").events
      = writesOf (getMovie sampleConfig sampleCodec
          ⟨fun _ => .body sampleBody, fun _ => .transportError, fun _ => false, false⟩
          Cache.empty "500").events ∧
    bodyOf (getMovie sampleConfig sampleCodec (envWith sampleBody (.response 200 [1, 2]))
        Cache.empty "500").events
      = bodyOf (getMovie sampleConfig sampleCodec
          ⟨fun _ => .body sampleBody, fun _ => .transportError, fun _ => false, false⟩
          Cache.empty "500").events ∧
    (getMovie sampleConfig sampleCodec (envWith sampleBody (.response 200 [1, 2]))
        Cache.empty "500").cache
      = (getMovie sampleConfig sampleCodec
          ⟨fun _ => .body sampleBody, fun _ => .transportError, fun _ => false, false⟩
          Cache.empty "500").cache :=
  getMovie_independent_of_poster sampleConfig sampleCodec
    (envWith sampleBody (.response 200 [1, 2]))
    ⟨fun _ => .body sampleBody, fun _ => .transportError, fun _ => false, false⟩
    Cache.empty "500" rfl

/-- C8: for every cache state the root handler writes exactly the fixed greeting
as the response body, sets no status code (so the status is the default 200),
and leaves the cache unchanged. -/
theorem getRoot_greeting (cache : Cache) :
    (getRoot cache).events = [.writeString "Movie monster, at your service"] ∧
    bodyOf (getRoot cache).events = "Movie monster, at your service" ∧
    headersOf (getRoot cache).events = [] ∧
    statusOf (getRoot cache).events = 200 ∧
    (getRoot cache).cache = cache ∧
    (getRoot cache).ending = .returned :=
  ⟨rfl, bodyOf_single _ _ rfl, rfl, rfl, rfl, rfl⟩

/-- C9 (evaluation at the failing input): a first lookup whose metadata body has
no poster path decodes to a record with the empty poster path; the response is
written, the poster download answers 200, and the slice `posterPath[1:]` is then
out of bounds: the handler panics instead of logging and returning, and no file
is created. -/
theorem getMovie_empty_poster_panics :
    sampleCodec.unmarshal emptyBody = some Movie.zero ∧
    Movie.zero.PosterPath = "" ∧
    sliceFrom1 Movie.zero.PosterPath = none ∧
    (getMovie sampleConfig sampleCodec (envWith emptyBody (.response 200 [1]))
      Cache.empty "42").events
      = [.metadataGet "https://api.themoviedb.org/3/movie/42?api_key=KEY",
         .writeString zeroBody,
         .imageGet "https://image.tmdb.org/t/p/w500"] ∧
    (getMovie sampleConfig sampleCodec (envWith emptyBody (.response 200 [1]))
      Cache.empty "42").ending = .panicked := by
  decide

/-- C10 (evaluation at the failing input): the comment of line 121 says that the
leading `/` character is stripped to form the local file name, so that the
poster path is `/` followed by the file name.  For the record with poster path
`abc.jpg`, which has no leading separator, and a poster download answering 200,
the slice `posterPath[1:]` of line 122 strips the `a`: the image URL requested is
the image prefix followed by the unmodified poster path, the file created is
named `bc.jpg`, and the poster path is not `/` followed by that name. -/
theorem getMovie_filename_not_separator_stripped :
    sampleCodec.unmarshal bareBody = some bareMovie ∧
    bareMovie.PosterPath = "abc.jpg" ∧
    imageFetches (getMovie sampleConfig sampleCodec (envWith bareBody (.response 200 [1]))
      Cache.empty "501").events = [sampleConfig.imageUrlPrefix ++ "abc.jpg"] ∧
    createCalls (getMovie sampleConfig sampleCodec (envWith bareBody (.response 200 [1]))
      Cache.empty "501").events = [goBytes "bc.jpg"] ∧
    createdFiles (getMovie sampleConfig sampleCodec (envWith bareBody (.response 200 [1]))
      Cache.empty "501").events = [goBytes "bc.jpg"] ∧
    goBytes bareMovie.PosterPath ≠ goBytes "/" ++ goBytes "bc.jpg" := by
  decide

end MovieMonster
